import Mathlib

/-!
Verification of the kuzflow order-extraction pipeline.

This file shallowly embeds the string-processing and orchestration logic of
the repository (the OCR result normalizer in `OCR/test_1/ocr.py`, the
field-extraction engine in `LLM/use/deepseek.py`, the batch scripts
`batch_ocr_compatible.py` / `batch_deepseek_compatible.py`, and the
subprocess runner in `main.py`) as executable Lean definitions, and proves
or refutes the specification's claims about them.

Conventions of the embedding:
* Python strings are Lean `String`s; most character-level work is done on
  `List Char` (`String.data`).
* Python dicts that the code treats as string-to-string maps are embedded as
  association lists `List (String × String)` with first-occurrence lookup
  (`pyLookup`) and in-place update (`dictSet`), which matches Python dict
  semantics for the duplicate-free lists produced here.
* The external OCR engine, the language model and the subprocess boundary are
  oracles: sum types / function parameters describing every outcome the
  Python code distinguishes; a Python exception raised by an external call is
  an explicit constructor (`Except.error`, `timeoutExpired`, ...).
* `json.loads` is embedded for the flat string-valued JSON objects this
  program exchanges; any other JSON text is treated as a parse failure, which
  the Python code maps to its fallback path exactly as the embedding does.
-/

/-! ### Python string primitives -/

/-- Whitespace as recognised by Python's `str.strip` / regex `\s`
(restricted to the ASCII whitespace characters that occur in this program's
data). -/
def isPyWs (c : Char) : Bool :=
  c = ' ' || c = '\t' || c = '\n' || c = '\r' || c = '\x0b' || c = '\x0c'

/-- Boolean list-prefix test. -/
def isPrefixB : List Char → List Char → Bool
  | [], _ => true
  | _ :: _, [] => false
  | a :: n, b :: h => a = b && isPrefixB n h

/-- Boolean substring test: `containsSubL hay needle` is Python's
`needle in hay` on character lists. -/
def containsSubL : List Char → List Char → Bool
  | h, n =>
    isPrefixB n h ||
      match h with
      | [] => false
      | _ :: t => containsSubL t n

/-- Python's `needle in hay` on strings. -/
def containsSub (hay needle : String) : Bool :=
  containsSubL hay.data needle.data

/-- Remove trailing Python-whitespace characters. -/
def dropTrailWs : List Char → List Char
  | [] => []
  | c :: t =>
    match dropTrailWs t with
    | [] => if isPyWs c then [] else [c]
    | r => c :: r

/-- Python `str.strip()` on character lists. -/
def pyStripChars (l : List Char) : List Char :=
  dropTrailWs (l.dropWhile isPyWs)

/-- Python `str.strip()`. -/
def pyStrip (s : String) : String :=
  ⟨pyStripChars s.data⟩

/-- Python `str.lower()` (simple per-character lowercasing; identity on the
CJK characters used here). -/
def pyLower (s : String) : String :=
  ⟨s.data.map Char.toLower⟩

/-- Python `str.split('\n')` on character lists: split at every newline,
keeping empty pieces. -/
def splitNl : List Char → List (List Char)
  | [] => [[]]
  | '\n' :: r => [] :: splitNl r
  | c :: r =>
    match splitNl r with
    | h :: t => (c :: h) :: t
    | [] => [[c]]

/-- Python `s.split('\n')`. -/
def pySplitLines (s : String) : List String :=
  (splitNl s.data).map (⟨·⟩)

/-! ### Python dict embedding -/

/-- First-occurrence association lookup (`d[k]` / `k in d`). -/
def pyLookup : List (String × String) → String → Option String
  | [], _ => none
  | (k', v) :: t, k => if k' = k then some v else pyLookup t k

/-- Python dict assignment `d[k] = v`: replace the entry in place if the key
is present, append otherwise. -/
def dictSet : List (String × String) → String → String → List (String × String)
  | [], k, v => [(k, v)]
  | (k', v') :: t, k, v =>
    if k' = k then (k, v) :: t else (k', v') :: dictSet t k v

theorem pyLookup_dictSet_self (r : List (String × String)) (k v : String) :
    pyLookup (dictSet r k v) k = some v := by
  induction r with
  | nil => simp [dictSet, pyLookup]
  | cons p t ih =>
    obtain ⟨k', v'⟩ := p
    by_cases h : k' = k
    · simp [dictSet, h, pyLookup]
    · simp [dictSet, h, pyLookup, ih]

theorem pyLookup_dictSet_ne (r : List (String × String)) (k v k' : String)
    (h : k' ≠ k) : pyLookup (dictSet r k v) k' = pyLookup r k' := by
  have h' : ¬(k = k') := fun hk => h hk.symm
  induction r with
  | nil => simp [dictSet, pyLookup, h']
  | cons p t ih =>
    obtain ⟨k₀, v₀⟩ := p
    by_cases hk : k₀ = k
    · subst hk
      simp [dictSet, pyLookup, h']
    · by_cases hk' : k₀ = k'
      · simp [dictSet, hk, pyLookup, hk', h]
      · simp [dictSet, hk, pyLookup, hk', ih]

theorem dictSet_map_fst_of_mem (r : List (String × String)) (k v : String)
    (h : k ∈ r.map Prod.fst) : (dictSet r k v).map Prod.fst = r.map Prod.fst := by
  induction r with
  | nil => simp at h
  | cons p t ih =>
    obtain ⟨k₀, v₀⟩ := p
    by_cases hk : k₀ = k
    · simp [dictSet, hk]
    · simp only [List.map_cons, List.mem_cons] at h
      rcases h with h | h

      · exact absurd h.symm hk
      · simp [dictSet, hk, ih h]

/-! ### `main.py`: `OrderProcessingPipeline.run_in_conda_env` -/

/-- Outcome of the `subprocess.run` call in `run_in_conda_env`, as the
Python code distinguishes outcomes: a completed process (any return code),
a `subprocess.TimeoutExpired`, or any other exception. -/
inductive SubprocResult where
  | completed (returncode : Int) (stdout stderr : String)
  | timeoutExpired
  | raised (msg : String)
deriving DecidableEq

/-- The fixed wall-clock timeout passed to `subprocess.run` (seconds),
`main.py` line 61. -/
def subprocess_timeout_seconds : Nat := 300

/-- `OrderProcessingPipeline.run_in_conda_env` (`main.py` lines 54-69),
viewed as a function of the subprocess outcome.  Returns the triple
`(returncode, stdout, stderr)` that the Python function returns. -/
def run_in_conda_env : SubprocResult → Int × String × String
  | .completed rc out err => (rc, out, err)
  | .timeoutExpired => (0, "", "timeout")
  | .raised e => (-1, "", e)

/-- C4: when the subprocess call exceeds the fixed 300-second timeout,
`run_in_conda_env` catches `TimeoutExpired` and reports return code 0 (the
success code) with empty stdout and stderr `"timeout"`: a timed-out step is
reported as a non-fatal success. -/
theorem c4_timeout_reported_as_success :
    run_in_conda_env SubprocResult.timeoutExpired = (0, "", "timeout")
      ∧ subprocess_timeout_seconds = 300 := by
  constructor <;> rfl

/-! ### JSON machinery shared by both response parsers

`re.search(r'\{[^}]*\}', response)` (batch script) and
`re.search(r'\{.*?\}', response, re.DOTALL)` (deepseek module) both return
the substring running from the first `{` that is followed by some `}` up to
and including the first such `}`; `findJsonChunk` computes that match. -/

/-- Characters up to and including the first closing brace, if any. -/
def takeToCloseBrace : List Char → Option (List Char)
  | [] => none
  | c :: r =>
    if c = Char.ofNat 125 then some [c]
    else (takeToCloseBrace r).map (c :: ·)

/-- The common brace-regex match of both response parsers (see above). -/
def findJsonChunk : List Char → Option (List Char)
  | [] => none
  | c :: r =>
    if c = Char.ofNat 123 then
      match takeToCloseBrace r with
      | some t => some (c :: t)
      | none => findJsonChunk r
    else findJsonChunk r

/-- JSON string-escape decoding for the escapes `json.loads` accepts (minus
`\uXXXX`, which this program's data never contains). -/
def jsonEsc (c : Char) : Option Char :=
  if c = '"' then some '"'
  else if c = '\\' then some '\\'
  else if c = '/' then some '/'
  else if c = 'n' then some '\n'
  else if c = 't' then some '\t'
  else if c = 'r' then some '\r'
  else if c = 'b' then some (Char.ofNat 8)
  else if c = 'f' then some (Char.ofNat 12)
  else none

/-- JSON insignificant whitespace. -/
def isJsonWs (c : Char) : Bool :=
  c = ' ' || c = '\t' || c = '\n' || c = '\r'

/-- Parser state for `jsonLoadsObj` (one flat JSON object with string keys
and string values, parsed as `json.loads` would, strictly: a trailing comma
or any non-string value is a parse error). -/
inductive JState where
  | expectOpen
  | start
  | key (acc : List Char)
  | keyEsc (acc : List Char)
  | afterKey (k : String)
  | expectVal (k : String)
  | val (k : String) (acc : List Char)
  | valEsc (k : String) (acc : List Char)
  | afterVal
  | afterComma
  | closed
  | failed

/-- One `json.loads` step of the flat-object state machine; the accumulator
holds the key/value pairs seen so far, most recent first. -/
def jsonStep : JState × List (String × String) → Char → JState × List (String × String)
  | (JState.expectOpen, kvs), c =>
    if isJsonWs c then (JState.expectOpen, kvs)
    else if c = Char.ofNat 123 then (JState.start, kvs)
    else (JState.failed, kvs)
  | (JState.start, kvs), c =>
    if isJsonWs c then (JState.start, kvs)
    else if c = '"' then (JState.key [], kvs)
    else if c = Char.ofNat 125 then (JState.closed, kvs)
    else (JState.failed, kvs)
  | (JState.key acc, kvs), c =>
    if c = '"' then (JState.afterKey ⟨acc.reverse⟩, kvs)
    else if c = '\\' then (JState.keyEsc acc, kvs)
    else (JState.key (c :: acc), kvs)
  | (JState.keyEsc acc, kvs), c =>
    match jsonEsc c with
    | some e => (JState.key (e :: acc), kvs)
    | none => (JState.failed, kvs)
  | (JState.afterKey k, kvs), c =>
    if isJsonWs c then (JState.afterKey k, kvs)
    else if c = ':' then (JState.expectVal k, kvs)
    else (JState.failed, kvs)
  | (JState.expectVal k, kvs), c =>
    if isJsonWs c then (JState.expectVal k, kvs)
    else if c = '"' then (JState.val k [], kvs)
    else (JState.failed, kvs)
  | (JState.val k acc, kvs), c =>
    if c = '"' then (JState.afterVal, (k, ⟨acc.reverse⟩) :: kvs)
    else if c = '\\' then (JState.valEsc k acc, kvs)
    else (JState.val k (c :: acc), kvs)
  | (JState.valEsc k acc, kvs), c =>
    match jsonEsc c with
    | some e => (JState.val k (e :: acc), kvs)
    | none => (JState.failed, kvs)
  | (JState.afterVal, kvs), c =>
    if isJsonWs c then (JState.afterVal, kvs)
    else if c = ',' then (JState.afterComma, kvs)
    else if c = Char.ofNat 125 then (JState.closed, kvs)
    else (JState.failed, kvs)
  | (JState.afterComma, kvs), c =>
    if isJsonWs c then (JState.afterComma, kvs)
    else if c = '"' then (JState.key [], kvs)
    else (JState.failed, kvs)
  | (JState.closed, kvs), c =>
    if isJsonWs c then (JState.closed, kvs)
    else (JState.failed, kvs)
  | (JState.failed, kvs), _ => (JState.failed, kvs)

/-- `json.loads` on one flat JSON object with string keys and string values.
Duplicate keys keep the last value, as `json.loads` does; the resulting
association list is duplicate-free with keys in first-insertion order, which
is exactly the Python dict `json.loads` builds. -/
def jsonLoadsObj (l : List Char) : Option (List (String × String)) :=
  match l.foldl jsonStep (JState.expectOpen, []) with
  | (JState.closed, kvs) => some (kvs.reverse.foldl (fun d p => dictSet d p.1 p.2) [])
  | _ => none

/-! ### The deepseek response clean-up
(`DeepSeekOrderExtractor.parse_extraction_result`, `deepseek.py` lines
194-201): seven `re.sub` passes applied to the matched JSON chunk, each
embedded as a left-to-right scan mirroring the regex engine. -/

/-- `re.sub(r'//.*?\n', '\n', s)`: drop `//` line comments (the state holds
the pending comment body, for the case of an unterminated comment, which the
regex leaves unchanged). -/
def subLineComments : Option (List Char) → List Char → List Char
  | none, '/' :: '/' :: r => subLineComments (some []) r
  | none, c :: r => c :: subLineComments none r
  | none, [] => []
  | some _, '\n' :: r => '\n' :: subLineComments none r
  | some acc, c :: r => subLineComments (some (c :: acc)) r
  | some acc, [] => '/' :: '/' :: acc.reverse

/-- `re.sub(r'/\*.*?\*/', '', s, flags=re.DOTALL)`: drop `/* */` comments. -/
def subBlockComments : Option (List Char) → List Char → List Char
  | none, '/' :: '*' :: r => subBlockComments (some []) r
  | none, c :: r => c :: subBlockComments none r
  | none, [] => []
  | some _, '*' :: '/' :: r => subBlockComments none r
  | some acc, c :: r => subBlockComments (some (c :: acc)) r
  | some acc, [] => '/' :: '*' :: acc.reverse

/-- `re.sub(r'</?think>', '', s)`: drop reasoning tags. -/
def subThinkTags : List Char → List Char
  | '<' :: 't' :: 'h' :: 'i' :: 'n' :: 'k' :: '>' :: r => subThinkTags r
  | '<' :: '/' :: 't' :: 'h' :: 'i' :: 'n' :: 'k' :: '>' :: r => subThinkTags r
  | c :: r => c :: subThinkTags r
  | [] => []

theorem length_dropWhile_le (p : Char → Bool) (l : List Char) :
    (l.dropWhile p).length ≤ l.length := by
  induction l with
  | nil => simp [List.dropWhile]
  | cons c t ih =>
    rw [List.dropWhile_cons]
    split
    · exact Nat.le_succ_of_le ih
    · exact Nat.le_refl _

/-- `re.sub(r'```json\s*', '', s)`: drop ```` ```json ```` fences together
with the whitespace that follows them.  The flag records that a fence was
just removed and its trailing whitespace is still being consumed. -/
def subJsonFence : Bool → List Char → List Char
  | _, [] => []
  | skip, c₁ :: c₂ :: c₃ :: 'j' :: 's' :: 'o' :: 'n' :: r =>
    if skip && isPyWs c₁ then
      subJsonFence true (c₂ :: c₃ :: 'j' :: 's' :: 'o' :: 'n' :: r)
    else if c₁ = Char.ofNat 96 && c₂ = Char.ofNat 96 && c₃ = Char.ofNat 96 then
      subJsonFence true r
    else c₁ :: subJsonFence false (c₂ :: c₃ :: 'j' :: 's' :: 'o' :: 'n' :: r)
  | skip, c :: r =>
    if skip && isPyWs c then subJsonFence true r
    else c :: subJsonFence false r

/-- `re.sub(r'```\s*', '', s)`: drop remaining fences together with their
trailing whitespace (same shape as `subJsonFence`). -/
def subFence : Bool → List Char → List Char
  | _, [] => []
  | skip, c₁ :: c₂ :: c₃ :: r =>
    if skip && isPyWs c₁ then subFence true (c₂ :: c₃ :: r)
    else if c₁ = Char.ofNat 96 && c₂ = Char.ofNat 96 && c₃ = Char.ofNat 96 then
      subFence true r
    else c₁ :: subFence false (c₂ :: c₃ :: r)
  | skip, c :: r =>
    if skip && isPyWs c then subFence true r
    else c :: subFence false r

/-- `re.sub(r',\s*}', '}', s)`: remove a comma (plus whitespace) that
directly precedes a closing brace.  The state holds the whitespace seen
since a pending comma. -/
def subTrailCommaObj : Option (List Char) → List Char → List Char
  | none, c :: r =>
    if c = ',' then subTrailCommaObj (some []) r
    else c :: subTrailCommaObj none r
  | none, [] => []
  | some acc, c :: r =>
    if c = Char.ofNat 125 then c :: subTrailCommaObj none r
    else if isPyWs c then subTrailCommaObj (some (c :: acc)) r
    else
      ',' :: acc.reverse ++
        (if c = ',' then subTrailCommaObj (some []) r
         else c :: subTrailCommaObj none r)
  | some acc, [] => ',' :: acc.reverse

/-- `re.sub(r',\s*]', ']', s)`: same for closing brackets. -/
def subTrailCommaArr : Option (List Char) → List Char → List Char
  | none, c :: r =>
    if c = ',' then subTrailCommaArr (some []) r
    else c :: subTrailCommaArr none r
  | none, [] => []
  | some acc, c :: r =>
    if c = ']' then c :: subTrailCommaArr none r
    else if isPyWs c then subTrailCommaArr (some (c :: acc)) r
    else
      ',' :: acc.reverse ++
        (if c = ',' then subTrailCommaArr (some []) r
         else c :: subTrailCommaArr none r)
  | some acc, [] => ',' :: acc.reverse

/-- The deepseek parser's JSON clean-up: the seven `re.sub` passes of
`deepseek.py` lines 194-201, in source order. -/
def deepseekCleanJson (l : List Char) : List Char :=
  subTrailCommaArr none
    (subTrailCommaObj none
      (subFence false
        (subJsonFence false
          (subThinkTags
            (subBlockComments none
              (subLineComments none l))))))

/-! ### `batch_deepseek_compatible.py`: `parse_extraction_result`
(lines 249-305). -/

/-- The four field keys, in the insertion order of `default_result`. -/
def normKeys : List String :=
  ["company_name", "product_name", "product_quantity", "order_date"]

/-- `default_result`: every field mapped to the not-found sentinel. -/
def defaultResult : List (String × String) :=
  [("company_name", "未找到"), ("product_name", "未找到"),
   ("product_quantity", "未找到"), ("order_date", "未找到")]

/-- The not-found synonyms checked (lowercased) in the validation loop:
`["", "未找到", "null", "none"]`. -/
def notFoundSyns : List String := ["", "未找到", "null", "none"]

/-- One iteration of the validation loop (lines 268-274): read the field,
trim it, and substitute the sentinel when it is missing, empty, or a
not-found synonym.  (The Python code first stores the trimmed value and then
possibly overwrites it with the sentinel; no other key is read in between,
so the two writes are folded into one.) -/
def normStep (r : List (String × String)) (k : String) : List (String × String) :=
  match pyLookup r k with
  | some v =>
    if v ≠ "" then
      if pyStrip v = "" ∨ (notFoundSyns.contains (pyLower (pyStrip v))) then
        dictSet r k "未找到"
      else dictSet r k (pyStrip v)
    else dictSet r k "未找到"
  | none => dictSet r k "未找到"

/-- The whole validation loop `for key in default_result.keys(): ...`. -/
def normalizeResult (r : List (String × String)) : List (String × String) :=
  normKeys.foldl normStep r

/-- Backtracking matcher for the tail `\s*(.+)` of `re.search(r'[:：]\s*(.+)', line)`,
positioned just after the colon: try the longest whitespace run first and
shrink it until `(.+)` (one or more non-newline characters, greedy) can
match; returns the captured group. -/
def colonCaptureTail : Nat → List Char → Option (List Char)
  | k, r =>
    let rest := r.drop k
    match rest with
    | c :: _ =>
      if c ≠ '\n' then some (rest.takeWhile (· ≠ '\n'))
      else match k with
        | 0 => none
        | k' + 1 => colonCaptureTail k' r
    | [] =>
      match k with
      | 0 => none
      | k' + 1 => colonCaptureTail k' r

/-- `re.search(r'[:：]\s*(.+)', line)`: scan for the first colon at which the
tail matches, returning group 1. -/
def colonCapture : List Char → Option (List Char)
  | [] => none
  | c :: r =>
    if c = ':' ∨ c = '：' then
      match colonCaptureTail ((r.takeWhile isPyWs).length) r with
      | some cap => some cap
      | none => colonCapture r
    else colonCapture r

/-- One line of the text fallback (lines 282-299): the `elif` chain keyed on
`公司/名称`, `物品/名称`, `数量`, `日期`, each branch extracting the text
after a colon into its field. -/
def textFallbackStep (r : List (String × String)) (line : String) : List (String × String) :=
  let l := pyStrip line
  if containsSub l "公司" = true ∧ containsSub l "名称" = true then
    match colonCapture l.data with
    | some cap => dictSet r "company_name" (pyStrip ⟨cap⟩)
    | none => r
  else if containsSub l "物品" = true ∧ containsSub l "名称" = true then
    match colonCapture l.data with
    | some cap => dictSet r "product_name" (pyStrip ⟨cap⟩)
    | none => r
  else if containsSub l "数量" = true then
    match colonCapture l.data with
    | some cap => dictSet r "product_quantity" (pyStrip ⟨cap⟩)
    | none => r
  else if containsSub l "日期" = true then
    match colonCapture l.data with
    | some cap => dictSet r "order_date" (pyStrip ⟨cap⟩)
    | none => r
  else r

/-- The text fallback (lines 279-301): start from a copy of
`default_result` and run the `elif` chain over `response.split('\n')`. -/
def textFallback (response : String) : List (String × String) :=
  (pySplitLines response).foldl textFallbackStep defaultResult

/-- `parse_extraction_result` of `batch_deepseek_compatible.py` (lines
249-305): find the first `{...}` chunk and `json.loads` it, then validate
the four fields; if no chunk is found, run the text fallback; if
`json.loads` raises, the surrounding `except` returns `default_result`. -/
def batch_parse_extraction_result (response : String) : List (String × String) :=
  match findJsonChunk response.data with
  | some chunk =>
    match jsonLoadsObj chunk with
    | some kvs => normalizeResult kvs
    | none => defaultResult
  | none => textFallback response

example :
    batch_parse_extraction_result
      "\x7b\"company_name\":\"ACME Corp\",\"product_name\":\"\",\"product_quantity\":\"500kg\",\"order_date\":\"null\"\x7d" =
      [("company_name", "ACME Corp"), ("product_name", "未找到"),
       ("product_quantity", "500kg"), ("order_date", "未找到")] := by decide

example :
    pyLookup (batch_parse_extraction_result "abc\n数量: 500斤") "product_quantity" =
      some "500斤" := by decide

example :
    pyLookup (batch_parse_extraction_result "数量: 500斤\n数量: 999吨") "product_quantity" =
      some "999吨" := by decide

/-! ### `LLM/use/deepseek.py`: `DeepSeekOrderExtractor.parse_extraction_result`
(lines 179-248).  The regex fallback patterns (lines 217-239) are embedded as
deterministic matchers with the exact backtracking behaviour of the
originals. -/

/-- Drop `pfx` from the front of `s` when it is a prefix. -/
def stripPfx : List Char → List Char → Option (List Char)
  | [], s => some s
  | _ :: _, [] => none
  | a :: n, b :: s => if a = b then stripPfx n s else none

/-- The optional-quote class `["']`. -/
def isQuoteCh (c : Char) : Bool := c = '"' || c = Char.ofNat 39

/-- The capture class `[^"',\n]`. -/
def inCapCls (c : Char) : Bool :=
  !(c = '"' || c = Char.ofNat 39 || c = ',' || c = '\n')

/-- `([^"',\n]+)`: greedy non-empty capture. -/
def capClsPlus (r : List Char) : Option (List Char) :=
  let cap := r.takeWhile inCapCls
  if cap.isEmpty then none else some cap

/-- `["']?([^"',\n]+)` at a fixed position. -/
def quoteCapTry (rest : List Char) : Option (List Char) :=
  match rest with
  | c :: t => if isQuoteCh c then capClsPlus t else capClsPlus rest
  | [] => none

/-- `\s*["']?([^"',\n]+)` with regex backtracking over the whitespace run:
try `\s*` of length `k`, `k-1`, ..., `0`. -/
def wsQuoteCap : Nat → List Char → Option (List Char)
  | k, r =>
    match quoteCapTry (r.drop k) with
    | some cap => some cap
    | none =>
      match k with
      | 0 => none
      | k' + 1 => wsQuoteCap k' r

/-- One label pattern `LABEL["']?\s*[:：]\s*["']?([^"',\n]+)` tried at a
fixed position; the pieces before the colon are deterministic because the
quote/whitespace/colon classes are disjoint. -/
def matchLabelAt (lab : List Char) (s : List Char) : Option (List Char) :=
  match stripPfx lab s with
  | none => none
  | some r1 =>
    let r2 := match r1 with
      | c :: t => if isQuoteCh c then t else r1
      | [] => r1
    let r3 := r2.dropWhile isPyWs
    match r3 with
    | c :: r4 =>
      if c = ':' ∨ c = '：' then wsQuoteCap ((r4.takeWhile isPyWs).length) r4
      else none
    | [] => none

/-- `re.search`: try the matcher at every position, left to right. -/
def searchWith (m : List Char → Option (List Char)) : List Char → Option (List Char)
  | [] => m []
  | c :: t =>
    match m (c :: t) with
    | some cap => some cap
    | none => searchWith m t

/-- ASCII digit (`\d` over this program's data). -/
def isDigitCh (c : Char) : Bool := '0' ≤ c && c ≤ '9'

/-- The character class `[吨|公斤|千克|升|立方米|件|个|套]` (a set of
characters, `|` included literally). -/
def qtyUnitCls (c : Char) : Bool :=
  ['吨', '|', '公', '斤', '千', '克', '升', '立', '方', '米', '件', '个', '套'].contains c

/-- `(\d+\s*[吨|公斤|千克|升|立方米|件|个|套]+)` at a fixed position (no
backtracking is ever needed: the three classes are pairwise disjoint). -/
def matchQtyAt (s : List Char) : Option (List Char) :=
  let ds := s.takeWhile isDigitCh
  if ds.isEmpty then none
  else
    let r1 := s.drop ds.length
    let ws := r1.takeWhile isPyWs
    let r2 := r1.drop ws.length
    let us := r2.takeWhile qtyUnitCls
    if us.isEmpty then none else some (ds ++ ws ++ us)

/-- The date separator class: dash or forward slash. -/
def isDateSep (c : Char) : Bool := c = '-' || c = '/'

/-- One or two digits followed by a date separator, greedy with one-step
backtracking; returns the digits and the rest beginning at the separator. -/
def grabMid (r : List Char) : Option (List Char × List Char) :=
  match r with
  | d1 :: d2 :: c3 :: rest =>
    if isDigitCh d1 && isDigitCh d2 && isDateSep c3 then some ([d1, d2], c3 :: rest)
    else if isDigitCh d1 && isDateSep d2 then some ([d1], d2 :: c3 :: rest)
    else none
  | [d1, d2] =>
    if isDigitCh d1 && isDateSep d2 then some ([d1], [d2]) else none
  | _ => none

/-- The bare date pattern (four digits, separator, one or two digits,
separator, one or two digits) at a fixed position. -/
def matchDateAt (s : List Char) : Option (List Char) :=
  match s with
  | a :: b :: c :: d :: s1 :: rest1 =>
    if isDigitCh a && isDigitCh b && isDigitCh c && isDigitCh d && isDateSep s1 then
      match grabMid rest1 with
      | some (mid, rest2) =>
        match rest2 with
        | s2 :: rest3 =>
          if isDateSep s2 then
            let run := rest3.takeWhile isDigitCh
            if run.isEmpty then none
            else some ([a, b, c, d, s1] ++ mid ++ [s2] ++ run.take 2)
          else none
        | [] => none
      | none => none
    else none
  | _ => none

/-- Try an ordered pattern list, first match wins (the inner
`for pattern in pattern_list: ... break`). -/
def tryPats (resp : List Char) : List (List Char → Option (List Char)) → Option (List Char)
  | [] => none
  | p :: ps =>
    match p resp with
    | some cap => some cap
    | none => tryPats resp ps

/-- One field of the regex fallback: `match.group(1).strip()` of the first
matching pattern, sentinel otherwise. -/
def dsPatField (resp : List Char) (pats : List (List Char → Option (List Char))) : String :=
  match tryPats resp pats with
  | some cap => pyStrip ⟨cap⟩
  | none => "未找到"

/-- The regex fallback of `deepseek.py` lines 208-248: the per-field pattern
lists applied to the raw response, in the insertion order of
`extracted_info`. -/
def deepseekRegexFallback (response : String) : List (String × String) :=
  [("客户公司名称",
    dsPatField response.data
      [searchWith (matchLabelAt "客户公司名称".data),
       searchWith (matchLabelAt "甲方".data),
       searchWith (matchLabelAt "公司".data)]),
   ("购买物品名称",
    dsPatField response.data
      [searchWith (matchLabelAt "购买物品名称".data),
       searchWith (matchLabelAt "物品名称".data),
       searchWith (matchLabelAt "产品".data)]),
   ("购买物品数量",
    dsPatField response.data
      [searchWith (matchLabelAt "购买物品数量".data),
       searchWith (matchLabelAt "数量".data),
       searchWith matchQtyAt]),
   ("下订单日期",
    dsPatField response.data
      [searchWith (matchLabelAt "下订单日期".data),
       searchWith (matchLabelAt "订单日期".data),
       searchWith (matchLabelAt "日期".data),
       searchWith matchDateAt])]

/-- `DeepSeekOrderExtractor.parse_extraction_result` (`deepseek.py` lines
179-248): find the first `{...}` chunk, clean it up, `json.loads` it and
return the parsed object unchanged; if there is no chunk or the parse
raises, run the regex fallback. -/
def deepseek_parse_extraction_result (response : String) : List (String × String) :=
  match findJsonChunk response.data with
  | some chunk =>
    match jsonLoadsObj (deepseekCleanJson chunk) with
    | some kvs => kvs
    | none => deepseekRegexFallback response
  | none => deepseekRegexFallback response

example :
    deepseek_parse_extraction_result "\x7b\"a\":\"b\",\x7d" = [("a", "b")] := by decide

example :
    deepseek_parse_extraction_result "abc\n数量: 500斤" =
      [("客户公司名称", "未找到"), ("购买物品名称", "未找到"),
       ("购买物品数量", "500斤"), ("下订单日期", "未找到")] := by decide

example :
    deepseek_parse_extraction_result "订单日期: 2024-01-15\n数量: 500吨" =
      [("客户公司名称", "未找到"), ("购买物品名称", "未找到"),
       ("购买物品数量", "500吨"), ("下订单日期", "2024-01-15")] := by decide

/-! ### `LLM/use/deepseek.py`: `DeepSeekOrderExtractor.extract_from_ocr_text`
(lines 250-297) and `extract_order_info` (lines 93-177). -/

/-- The `extracted_info` dict of the direct pass.  The four fields embed
the dict entries `客户公司名称` (company), `购买物品名称` (product),
`购买物品数量` (quantity) and `下订单日期` (order date), in insertion
order. -/
structure ZhFields where
  company : String
  product : String
  quantity : String
  order_date : String
deriving DecidableEq

/-- The direct pass's dict as an association list, in insertion order. -/
def zhToAssoc (z : ZhFields) : List (String × String) :=
  [("客户公司名称", z.company), ("购买物品名称", z.product),
   ("购买物品数量", z.quantity), ("下订单日期", z.order_date)]

/-- The company loop (lines 269-274): find the first line containing
`购买方` whose following line strips to something non-empty and different
from `购买方`; that stripped following line is the company name. -/
def findCompanyLoop : List String → Option String
  | [] => none
  | [_] => none
  | l₁ :: l₂ :: rest =>
    if containsSub l₁ "购买方" = true then
      if pyStrip l₂ ≠ "" ∧ pyStrip l₂ ≠ "购买方" then some (pyStrip l₂)
      else findCompanyLoop (l₂ :: rest)
    else findCompanyLoop (l₂ :: rest)

/-- The product loop (lines 277-285): stop at the first line containing
`碳酸钠`; `some q?` means such a line was found, with `q?` the stripped next
line when it contains `KG`/`kg`. -/
def findProductLoop : List String → Option (Option String)
  | [] => none
  | [l] => if containsSub l "碳酸钠" = true then some none else none
  | l₁ :: l₂ :: rest =>
    if containsSub l₁ "碳酸钠" = true then
      some (if containsSub (pyStrip l₂) "KG" = true ∨ containsSub (pyStrip l₂) "kg" = true
            then some (pyStrip l₂) else none)
    else findProductLoop (l₂ :: rest)

/-- Trigger of the fallback quantity loop (line 290): some line contains
`物品` and strips to more than two characters. -/
def findAnyItemLine (lines : List String) : Bool :=
  lines.any (fun l => containsSub l "物品" && decide ((pyStrip l).length > 2))

/-- The inner fallback scan (lines 292-295): the first line satisfying
`next_line.strip() and "KG" in next_line or "kg" in next_line` (the
original's operator precedence), stripped. -/
def findKgLine : List String → Option String
  | [] => none
  | nl :: rest =>
    if (pyStrip nl ≠ "" ∧ containsSub nl "KG" = true) ∨ containsSub nl "kg" = true then
      some (pyStrip nl)
    else findKgLine rest

/-- `DeepSeekOrderExtractor.extract_from_ocr_text` (lines 250-297).  The
fallback loop (lines 288-295) only ever assigns the quantity field: each
qualifying `物品` line rewrites it with the same first `KG` line, so one
conditional assignment captures the loop.  No rule assigns the date field. -/
def extract_from_ocr_text (ocr_text : String) : ZhFields :=
  let lines := pySplitLines (pyStrip ocr_text)
  let company := (findCompanyLoop lines).getD "未找到"
  let pq : String × String :=
    match findProductLoop lines with
    | some q? => ("碳酸钠", q?.getD "未找到")
    | none => ("未找到", "未找到")
  let quantity :=
    if pq.1 = "未找到" then
      if findAnyItemLine lines = true then
        match findKgLine lines with
        | some v => v
        | none => pq.2
      else pq.2
    else pq.2
  { company := company, product := pq.1,
    quantity := quantity, order_date := "未找到" }

/-- `DeepSeekOrderExtractor.create_extraction_prompt` (lines 62-91): the
fixed instruction text with the OCR text spliced in. -/
def create_extraction_prompt (ocr_text : String) : String :=
  "请分析以下化工厂订单文本，提取关键信息：\n\n订单文本：\n" ++ ocr_text ++
  "\n\n请提取以下信息并以JSON格式返回：\n1. 客户公司名称（甲方）- 在\"购买方\"后面的公司名称\n2. 购买物品名称 - 具体的化学品名称\n3. 购买物品数量（包含单位）- 如\"200KG\"\n4. 下订单的日期 - 如果有日期信息\n\n请直接返回JSON格式，格式如下：\n\x7b\n    \"客户公司名称\": \"公司名称\",\n    \"购买物品名称\": \"物品名称\", \n    \"购买物品数量\": \"数量单位\",\n    \"下订单日期\": \"日期或未找到\"\n\x7d\n\n请确保JSON格式正确，不要包含其他文字："

/-- The dict returned by `extract_order_info`: the success dict has keys
`success, extracted_info, raw_response, ocr_text`; the failure dict has
`success, error, extracted_info, ocr_text` (so `raw_response` is `none`
there, and `error` is `none` on success). -/
structure ExtractionOutcome where
  success : Bool
  extracted_info : List (String × String)
  raw_response : Option String
  error : Option String
  ocr_text : String
deriving DecidableEq

/-- `DeepSeekOrderExtractor.extract_order_info` (lines 93-177).  The model
boundary (tokenizer, `model.generate`, decode; lines 123-158) is the oracle
`model`, mapping the prompt to either the decoded reply or the message of a
raised exception; the `except` block (lines 170-177) catches the latter and
returns the failure dict with an empty `extracted_info`. -/
def extract_order_info (model : String → Except String String)
    (ocr_text : String) : ExtractionOutcome :=
  let direct_extracted := extract_from_ocr_text ocr_text
  if direct_extracted.company ≠ "未找到" ∨
     direct_extracted.product ≠ "未找到" ∨
     direct_extracted.quantity ≠ "未找到" then
    { success := true, extracted_info := zhToAssoc direct_extracted,
      raw_response := some "直接提取", error := none, ocr_text := ocr_text }
  else
    match model (create_extraction_prompt ocr_text) with
    | Except.ok response =>
      { success := true,
        extracted_info := deepseek_parse_extraction_result response,
        raw_response := some response, error := none, ocr_text := ocr_text }
    | Except.error e =>
      { success := false, extracted_info := [], raw_response := none,
        error := some e, ocr_text := ocr_text }

example :
    extract_from_ocr_text "购买方\nACME公司" =
      { company := "ACME公司", product := "未找到",
        quantity := "未找到", order_date := "未找到" } := by decide

example :
    extract_from_ocr_text "订购产品：碳酸钠\n200KG" =
      { company := "未找到", product := "碳酸钠",
        quantity := "200KG", order_date := "未找到" } := by decide

example :
    (extract_order_info (fun _ => Except.error "boom") "").extracted_info = [] := by decide

/-! ### `OCR/test_1/ocr.py`: `OrderOCR.extract_text_from_image`
(lines 17-102).  The engine response is embedded as a sum type covering the
shapes the Python code branches on; `str(result)` is passed alongside as the
`sres` argument since Lean cannot stringify an opaque engine object. -/

/-- A bounding box (a list of coordinate points). -/
def BBox := List (Rat × Rat)
deriving DecidableEq

/-- One element of an old-style PaddleOCR result list: a well-formed
`[box, (text, confidence)]` pair, a value failing the
`isinstance(item, list) and len(item) == 2` test (silently skipped), or a
two-element list that raises on the destructuring
`bbox, (text, conf) = item`. -/
inductive OCRLineEntry where
  | pair (bbox : BBox) (text : String) (confidence : Rat)
  | notAPair
  | badPair
deriving DecidableEq

/-- The first element of a non-empty engine result list, as the Python code
branches on it: a dict with `rec_texts` (and optional `rec_scores` /
`rec_boxes`), some other dict, an old-style list of line entries, or any
other object. -/
inductive OCRRespItem where
  | recDict (rec_texts : List String) (rec_scores : Option (List Rat))
      (rec_boxes : Option (List BBox))
  | otherDict
  | lineList (entries : List OCRLineEntry)
  | otherItem
deriving DecidableEq

/-- The whole engine response: falsy (`None` or `[]`), a non-empty list
(only its first element is inspected), or a truthy non-list object. -/
inductive OCREngineResult where
  | empty
  | items (first : OCRRespItem)
  | nonList
deriving DecidableEq

/-- One entry of `raw_data`. -/
structure RawData where
  bbox : BBox
  text : String
  confidence : Rat
deriving DecidableEq

/-- The dict returned by `extract_text_from_image`: the early-return error
dict `{"raw_result": [], "formatted_text": "", "error": ...}` (no
`total_lines`, no `success`), or the normal dict with `total_lines` and
`success` (always `True`). -/
inductive OCRExtractOutput where
  | errorOut (raw_result : List RawData) (formatted_text : String) (error : String)
  | okOut (raw_result : List RawData) (formatted_text : String)
      (total_lines : Nat) (success : Bool)
deriving DecidableEq

/-- The `total_lines` entry, when present. -/
def OCRExtractOutput.totalLines : OCRExtractOutput → Option Nat
  | .errorOut _ _ _ => none
  | .okOut _ _ n _ => some n

/-- The `raw_result` entry. -/
def OCRExtractOutput.rawResult : OCRExtractOutput → List RawData
  | .errorOut r _ _ => r
  | .okOut r _ _ _ => r

/-- The `rec_texts` loop (lines 52-59): index `i` runs over the texts;
blank texts are skipped (`if text.strip():`); scores and boxes are indexed
with bounds-checked fallbacks. -/
def collectRec (scores : List Rat) (boxes : List BBox) :
    List String → Nat → List RawData × List String
  | [], _ => ([], [])
  | t :: ts, i =>
    let rest := collectRec scores boxes ts (i + 1)
    if pyStrip t ≠ "" then
      (⟨boxes.getD i [], t, scores.getD i ((9 : Rat) / 10)⟩ :: rest.1, t :: rest.2)
    else rest

/-- The old-style list loop (lines 67-71): well-formed pairs are collected,
non-pairs are skipped, and a bad pair raises (caught by the enclosing
`except`, which stringifies the whole result). -/
def lineScan : List OCRLineEntry → Except Unit (List RawData × List String)
  | [] => Except.ok ([], [])
  | OCRLineEntry.pair b t c :: rest =>
    match lineScan rest with
    | Except.ok (rd, fl) => Except.ok (⟨b, t, c⟩ :: rd, t :: fl)
    | Except.error e => Except.error e
  | OCRLineEntry.notAPair :: rest => lineScan rest
  | OCRLineEntry.badPair :: _ => Except.error ()

/-- The stringification fallback used by every unrecognized-shape branch:
`formatted_lines = [str(result)]`, one raw entry with confidence 0.9. -/
def strFallback (sres : String) : List RawData × List String :=
  ([⟨[], sres, (9 : Rat) / 10⟩], [sres])

/-- `'\n'.join(formatted_lines)`. -/
def joinNl (ls : List String) : String :=
  ⟨List.intercalate ['\n'] (ls.map String.data)⟩

/-- `OrderOCR.extract_text_from_image` (lines 17-102), from the engine
response on.  (The `FileNotFoundError` raised for a missing image path,
line 26, happens before the engine is consulted and is outside this
function's scope.)  `sres` is `str(result)`. -/
def extract_text_from_image (result : OCREngineResult) (sres : String) :
    OCRExtractOutput :=
  match result with
  | OCREngineResult.empty =>
    OCRExtractOutput.errorOut [] "" "未识别到任何文字"
  | OCREngineResult.items first =>
    let pair :=
      match first with
      | OCRRespItem.recDict texts oscores oboxes =>
        collectRec (oscores.getD (List.replicate texts.length ((9 : Rat) / 10)))
          (oboxes.getD (List.replicate texts.length [])) texts 0
      | OCRRespItem.otherDict => strFallback sres
      | OCRRespItem.lineList entries =>
        match lineScan entries with
        | Except.ok (rd, fl) => if fl.isEmpty then strFallback sres else (rd, fl)
        | Except.error _ => strFallback sres
      | OCRRespItem.otherItem => strFallback sres
    OCRExtractOutput.okOut pair.1 (joinNl pair.2) pair.2.length true
  | OCREngineResult.nonList =>
    OCRExtractOutput.okOut (strFallback sres).1 (joinNl (strFallback sres).2)
      (strFallback sres).2.length true

/-- Modelled from the spec: "the number of text regions reported in the
engine response" against which the spec compares the adapter's output
length — the count of `rec_texts` entries for the dict shape, the entry
count for the tuple-list shape, zero for an empty response, and the single
stringified region for unrecognized shapes. -/
def spec_reportedRegionCount : OCREngineResult → Nat
  | OCREngineResult.empty => 0
  | OCREngineResult.items (OCRRespItem.recDict texts _ _) => texts.length
  | OCREngineResult.items (OCRRespItem.lineList entries) => entries.length
  | OCREngineResult.items OCRRespItem.otherDict => 1
  | OCREngineResult.items OCRRespItem.otherItem => 1
  | OCREngineResult.nonList => 1

example :
    extract_text_from_image
      (OCREngineResult.items (OCRRespItem.recDict [" "] none none)) "x" =
      OCRExtractOutput.okOut [] "" 0 true := by decide

/-! ### Batch counters (`batch_ocr_compatible.py` lines 59-170,
`batch_deepseek_compatible.py` lines 84-177). -/

/-- What one loop iteration does to the counters, for either batch script:
the per-file outcomes the code distinguishes.  `noResult` is the explicit
skip (`not result or not result[0]`, resp. empty `raw_text`);
`raisedBefore` is an exception before the success increment; `okThenRaised`
is an exception *after* `processed_* += 1` (e.g. while writing the per-file
result files), which the `except` clause then also counts as failed. -/
inductive BatchFileOutcome where
  | noResult
  | raisedBefore
  | okThenRaised
  | ok
deriving DecidableEq

/-- The three counters of `batch_results` / `batch_ai_results`. -/
structure BatchCounts where
  total : Nat
  processed : Nat
  failed : Nat
deriving DecidableEq

/-- One loop iteration's effect on the counters. -/
def batchCountStep (c : BatchCounts) : BatchFileOutcome → BatchCounts
  | BatchFileOutcome.noResult => { c with failed := c.failed + 1 }
  | BatchFileOutcome.raisedBefore => { c with failed := c.failed + 1 }
  | BatchFileOutcome.okThenRaised =>
    { c with processed := c.processed + 1, failed := c.failed + 1 }
  | BatchFileOutcome.ok => { c with processed := c.processed + 1 }

/-- The counters of `batch_ocr_process` after its loop: `total_images` is
the file count, `processed_images`/`failed_images` are folded over the
per-image outcomes. -/
def batch_ocr_counts (files : List BatchFileOutcome) : BatchCounts :=
  files.foldl batchCountStep ⟨files.length, 0, 0⟩

/-- The counters of `batch_deepseek_process` after its loop
(`total_files` / `processed_files` / `failed_files`); the loop updates the
counters identically. -/
def batch_deepseek_counts (files : List BatchFileOutcome) : BatchCounts :=
  files.foldl batchCountStep ⟨files.length, 0, 0⟩

/-- The printed success rate `processed/total*100` (line 167 resp. 174). -/
def batchSuccessRate (c : BatchCounts) : Rat :=
  (c.processed : Rat) / (c.total : Rat) * 100

/-! ### `batch_ocr_compatible.py` / `test_ocr_compatible.py`:
`extract_basic_info` (identical in both, lines 178-204 resp. 128-154). -/

/-- The quantity unit markers of line 195. -/
def basicUnits : List String :=
  ["斤", "公斤", "吨", "升", "毫升", "立方米", "件", "个", "包"]

/-- The date keywords of line 200. -/
def basicDateKeys : List String := ["日期", "年", "月", "日"]

/-- One loop iteration of `extract_basic_info` (lines 187-202): the line is
stripped, then three independent first-match-wins rules fill company name,
quantity and date. -/
def basicStep (r : List (String × String)) (text : String) : List (String × String) :=
  let t := pyStrip text
  let r₁ :=
    if containsSub t "公司" = true ∧ pyLookup r "company_name" = some "未找到" then
      dictSet r "company_name" t
    else r
  let r₂ :=
    if basicUnits.any (fun u => containsSub t u) = true ∧
       pyLookup r₁ "product_quantity" = some "未找到" then
      dictSet r₁ "product_quantity" t
    else r₁
  if basicDateKeys.any (fun u => containsSub t u) = true ∧
     (containsSub t "202" = true ∨ containsSub t "2025" = true) ∧
     pyLookup r₂ "order_date" = some "未找到" then
    dictSet r₂ "order_date" t
  else r₂

/-- `extract_basic_info`: fold the rules over the text lines, starting from
the all-sentinel dict. -/
def extract_basic_info (texts : List String) : List (String × String) :=
  texts.foldl basicStep defaultResult

example :
    extract_basic_info [" A公司 "] =
      [("company_name", "A公司"), ("product_name", "未找到"),
       ("product_quantity", "未找到"), ("order_date", "未找到")] := by decide

example :
    extract_basic_info ["订单日期：2025年1月3日", "500公斤", "B公司", "C公司"] =
      [("company_name", "B公司"), ("product_name", "未找到"),
       ("product_quantity", "500公斤"), ("order_date", "订单日期：2025年1月3日")] := by decide

/-! ### Claims C1, C9, C3, C7 -/

/-- The direct pass never assigns the date field. -/
theorem extract_from_ocr_text_order_date (t : String) :
    (extract_from_ocr_text t).order_date = "未找到" := rfl

/-- Looking up the date key in the direct pass's dict. -/
theorem pyLookup_zhToAssoc_date (z : ZhFields) :
    pyLookup (zhToAssoc z) "下订单日期" = some z.order_date := rfl

/-- C1: if the direct pass yields any field different from the not-found
sentinel, `extract_order_info` returns exactly the direct result, with
provenance `直接提取` as the raw response, and the outcome does not depend
on the language model (the model is never invoked). -/
theorem c1_direct_pass_short_circuit
    (model model' : String → Except String String) (ocr_text : String)
    (h : (extract_from_ocr_text ocr_text).company ≠ "未找到" ∨
         (extract_from_ocr_text ocr_text).product ≠ "未找到" ∨
         (extract_from_ocr_text ocr_text).quantity ≠ "未找到" ∨
         (extract_from_ocr_text ocr_text).order_date ≠ "未找到") :
    extract_order_info model ocr_text =
      { success := true,
        extracted_info := zhToAssoc (extract_from_ocr_text ocr_text),
        raw_response := some "直接提取", error := none, ocr_text := ocr_text }
    ∧ extract_order_info model ocr_text = extract_order_info model' ocr_text := by
  have h3 : (extract_from_ocr_text ocr_text).company ≠ "未找到" ∨
      (extract_from_ocr_text ocr_text).product ≠ "未找到" ∨
      (extract_from_ocr_text ocr_text).quantity ≠ "未找到" := by
    rcases h with h | h | h | h
    · exact Or.inl h
    · exact Or.inr (Or.inl h)
    · exact Or.inr (Or.inr h)
    · exact absurd (extract_from_ocr_text_order_date ocr_text) h
  constructor
  · simp only [extract_order_info]
    rw [if_pos h3]
  · simp only [extract_order_info]
    rw [if_pos h3, if_pos h3]

/-- Witness for C1 at a concrete direct-pass hit: the result is the direct
one for any model oracle, and two different oracles give the same result. -/
theorem c1_witness :
    extract_order_info (fun _ => Except.ok "reply") "购买方\nACME公司" =
      { success := true,
        extracted_info := zhToAssoc (extract_from_ocr_text "购买方\nACME公司"),
        raw_response := some "直接提取", error := none,
        ocr_text := "购买方\nACME公司" }
    ∧ extract_order_info (fun _ => Except.ok "reply") "购买方\nACME公司" =
      extract_order_info (fun _ => Except.error "down") "购买方\nACME公司" :=
  c1_direct_pass_short_circuit _ _ _ (by decide)

/-- C9: the direct pass returns the sentinel for the order-date field on
every input, and therefore every extraction result whose provenance is
`直接提取` carries the sentinel as its date field. -/
theorem c9_direct_pass_date_always_sentinel
    (model : String → Except String String) (t : String) :
    (extract_from_ocr_text t).order_date = "未找到"
    ∧ ((extract_order_info model t).raw_response = some "直接提取" →
       pyLookup (extract_order_info model t).extracted_info "下订单日期" =
         some "未找到") := by
  refine ⟨extract_from_ocr_text_order_date t, ?_⟩
  intro hprov
  by_cases h3 : (extract_from_ocr_text t).company ≠ "未找到" ∨
      (extract_from_ocr_text t).product ≠ "未找到" ∨
      (extract_from_ocr_text t).quantity ≠ "未找到"
  · simp only [extract_order_info]
    rw [if_pos h3]
    exact (pyLookup_zhToAssoc_date (extract_from_ocr_text t)).trans
      (congrArg some (extract_from_ocr_text_order_date t))
  · simp only [extract_order_info] at hprov ⊢
    rw [if_neg h3] at hprov ⊢
    cases hm : model (create_extraction_prompt t) with
    | ok response =>
      rw [hm] at hprov
      have hr : response = "直接提取" := by simpa using hprov
      subst hr
      show pyLookup (deepseek_parse_extraction_result "直接提取") "下订单日期" =
        some "未找到"
      decide
    | error e =>
      rw [hm] at hprov
      simp at hprov

/-- Witness for C9 at a concrete direct-pass extraction. -/
theorem c9_witness :
    (extract_from_ocr_text "购买方\nB公司").order_date = "未找到"
    ∧ pyLookup (extract_order_info (fun _ => Except.ok "") "购买方\nB公司").extracted_info
        "下订单日期" = some "未找到" :=
  ⟨(c9_direct_pass_date_always_sentinel (fun _ => Except.ok "") "购买方\nB公司").1,
   (c9_direct_pass_date_always_sentinel (fun _ => Except.ok "") "购买方\nB公司").2
     (by decide)⟩

/-- Counterexample for C3 as stated: when the model raises and nothing was
found directly, the failure result's `extracted_info` is the *empty* dict,
so its four fields are not set to the sentinel (looking up a field key
yields nothing, not `未找到`). -/
theorem c3_counterexample :
    (extract_order_info (fun _ => Except.error "boom") "").success = false
    ∧ (extract_order_info (fun _ => Except.error "boom") "").error = some "boom"
    ∧ (extract_order_info (fun _ => Except.error "boom") "").extracted_info = []
    ∧ pyLookup (extract_order_info (fun _ => Except.error "boom") "").extracted_info
        "客户公司名称" ≠ some "未找到" := by
  refine ⟨rfl, rfl, rfl, ?_⟩
  decide

/-- C3 as amended: any model failure is caught and converted into a
returned result (never a raised exception) with `success := false`, the
exception text as the error message, and an *empty* `extracted_info` dict
(rather than an all-sentinel one). -/
theorem c3_amended_failure_shape
    (model : String → Except String String) (t e : String)
    (h1 : (extract_from_ocr_text t).company = "未找到")
    (h2 : (extract_from_ocr_text t).product = "未找到")
    (h3 : (extract_from_ocr_text t).quantity = "未找到")
    (hm : model (create_extraction_prompt t) = Except.error e) :
    extract_order_info model t =
      { success := false, extracted_info := [], raw_response := none,
        error := some e, ocr_text := t } := by
  have hcond : ¬((extract_from_ocr_text t).company ≠ "未找到" ∨
      (extract_from_ocr_text t).product ≠ "未找到" ∨
      (extract_from_ocr_text t).quantity ≠ "未找到") := by
    push_neg
    exact ⟨h1, h2, h3⟩
  simp only [extract_order_info]
  rw [if_neg hcond, hm]

/-- Witness for the amended C3 at a concrete failing model call. -/
theorem c3_witness :
    extract_order_info (fun _ => Except.error "model down") "乙方" =
      { success := false, extracted_info := [], raw_response := none,
        error := some "model down", ocr_text := "乙方" } :=
  c3_amended_failure_shape _ "乙方" "model down" (by decide) (by decide) (by decide) rfl

/-- C7: on the reply `{"a":"b",}` both parsers find the whole reply as the
brace chunk; plain `json.loads` rejects it (trailing comma), but the
deepseek clean-up rewrites it to `{"a":"b"}`, and the deepseek
`parse_extraction_result` therefore returns the parsed object
`{"a": "b"}` instead of failing over. -/
theorem c7_trailing_comma_repair :
    findJsonChunk "\x7b\"a\":\"b\",\x7d".data = some "\x7b\"a\":\"b\",\x7d".data
    ∧ jsonLoadsObj "\x7b\"a\":\"b\",\x7d".data = none
    ∧ deepseekCleanJson "\x7b\"a\":\"b\",\x7d".data = "\x7b\"a\":\"b\"\x7d".data
    ∧ deepseek_parse_extraction_result "\x7b\"a\":\"b\",\x7d" = [("a", "b")] := by
  refine ⟨?_, ?_, ?_, ?_⟩ <;> decide

/-! ### Claim C2 -/

/-- The field processed by one validation step. -/
theorem pyLookup_normStep_self (r : List (String × String)) (k : String) :
    pyLookup (normStep r k) k =
      some (match pyLookup r k with
            | none => "未找到"
            | some v =>
              if v = "" then "未找到"
              else if pyStrip v = "" ∨ (notFoundSyns.contains (pyLower (pyStrip v))) then
                "未找到"
              else pyStrip v) := by
  unfold normStep
  cases h : pyLookup r k with
  | none => simp [pyLookup_dictSet_self]
  | some v =>
    by_cases hv : v = ""
    · simp [hv, pyLookup_dictSet_self]
    · by_cases hs : pyStrip v = "" ∨ pyLower (pyStrip v) ∈ notFoundSyns
      · simp [hv, hs, pyLookup_dictSet_self]
      · simp [hv, hs, pyLookup_dictSet_self]

/-- A validation step leaves other fields alone. -/
theorem pyLookup_normStep_ne (r : List (String × String)) (k k' : String)
    (h : k' ≠ k) : pyLookup (normStep r k) k' = pyLookup r k' := by
  unfold normStep
  cases hp : pyLookup r k with
  | none => simp [pyLookup_dictSet_ne, h]
  | some v =>
    by_cases hv : v = ""
    · simp [hv, pyLookup_dictSet_ne, h]
    · by_cases hs : pyStrip v = "" ∨ pyLower (pyStrip v) ∈ notFoundSyns
      · simp [hv, hs, pyLookup_dictSet_ne, h]
      · simp [hv, hs, pyLookup_dictSet_ne, h]

/-- C2: on any reply whose brace chunk `json.loads` accepts, the batch
`parse_extraction_result` maps every one of the four field keys to the
trimmed value when that is non-empty and not a (case-insensitive) not-found
synonym, and to the sentinel otherwise; in particular the claim's concrete
reply normalizes exactly as stated. -/
theorem c2_well_formed_json_normalization :
    (∀ (response : String) (kvs : List (String × String)) (k : String),
       (findJsonChunk response.data).bind jsonLoadsObj = some kvs →
       k ∈ normKeys →
       pyLookup (batch_parse_extraction_result response) k =
         some (match pyLookup kvs k with
               | none => "未找到"
               | some v =>
                 if v = "" then "未找到"
                 else if pyStrip v = "" ∨ (notFoundSyns.contains (pyLower (pyStrip v))) then
                   "未找到"
                 else pyStrip v))
    ∧ batch_parse_extraction_result
        "\x7b\"company_name\":\"ACME Corp\",\"product_name\":\"\",\"product_quantity\":\"500kg\",\"order_date\":\"null\"\x7d" =
        [("company_name", "ACME Corp"), ("product_name", "未找到"),
         ("product_quantity", "500kg"), ("order_date", "未找到")] := by
  constructor
  · intro response kvs k hbind hk
    obtain ⟨chunk, hc, hl⟩ := Option.bind_eq_some.mp hbind
    have hbp : batch_parse_extraction_result response = normalizeResult kvs := by
      simp only [batch_parse_extraction_result, hc, hl]
    rw [hbp]
    have hfold : normalizeResult kvs =
        normStep (normStep (normStep (normStep kvs "company_name") "product_name")
          "product_quantity") "order_date" := rfl
    rw [hfold]
    fin_cases hk
    · rw [pyLookup_normStep_ne _ _ _ (by decide), pyLookup_normStep_ne _ _ _ (by decide),
        pyLookup_normStep_ne _ _ _ (by decide), pyLookup_normStep_self]
    · rw [pyLookup_normStep_ne _ _ _ (by decide), pyLookup_normStep_ne _ _ _ (by decide),
        pyLookup_normStep_self, pyLookup_normStep_ne _ _ _ (by decide)]
    · rw [pyLookup_normStep_ne _ _ _ (by decide), pyLookup_normStep_self,
        pyLookup_normStep_ne _ _ _ (by decide), pyLookup_normStep_ne _ _ _ (by decide)]
    · rw [pyLookup_normStep_self, pyLookup_normStep_ne _ _ _ (by decide),
        pyLookup_normStep_ne _ _ _ (by decide), pyLookup_normStep_ne _ _ _ (by decide)]
  · decide

set_option maxRecDepth 10000 in
/-- Witness for C2: the general clause applied to the claim's concrete
reply and the `company_name` key. -/
theorem c2_witness :
    pyLookup
      (batch_parse_extraction_result
        "\x7b\"company_name\":\"ACME Corp\",\"product_name\":\"\",\"product_quantity\":\"500kg\",\"order_date\":\"null\"\x7d")
      "company_name" = some "ACME Corp" := by
  have h := c2_well_formed_json_normalization.1
    "\x7b\"company_name\":\"ACME Corp\",\"product_name\":\"\",\"product_quantity\":\"500kg\",\"order_date\":\"null\"\x7d"
    [("company_name", "ACME Corp"), ("product_name", ""),
     ("product_quantity", "500kg"), ("order_date", "null")]
    "company_name" (by decide) (by decide)
  rw [h]
  decide

/-! ### Claim C8 -/

/-- A line whose stripped text does not contain `数量` never touches the
quantity field of the text fallback. -/
theorem textFallbackStep_quantity_of_no_shuliang (r : List (String × String))
    (line : String) (h : containsSub (pyStrip line) "数量" = false) :
    pyLookup (textFallbackStep r line) "product_quantity" =
      pyLookup r "product_quantity" := by
  simp only [textFallbackStep]
  split_ifs with h1 h2 h3 h4
  · cases hc : colonCapture (pyStrip line).data with
    | some cap => exact pyLookup_dictSet_ne _ _ _ _ (by decide)
    | none => rfl
  · cases hc : colonCapture (pyStrip line).data with
    | some cap => exact pyLookup_dictSet_ne _ _ _ _ (by decide)
    | none => rfl
  · rw [h] at h3
    exact absurd h3 (by decide)
  · cases hc : colonCapture (pyStrip line).data with
    | some cap => exact pyLookup_dictSet_ne _ _ _ _ (by decide)
    | none => rfl
  · rfl

/-- Folding the text fallback over lines free of `数量` leaves the quantity
field unchanged. -/
theorem textFallback_fold_quantity (ls : List String) (r : List (String × String))
    (h : ∀ l ∈ ls, containsSub (pyStrip l) "数量" = false) :
    pyLookup (ls.foldl textFallbackStep r) "product_quantity" =
      pyLookup r "product_quantity" := by
  induction ls generalizing r with
  | nil => rfl
  | cons l ls ih =>
    rw [List.foldl_cons, ih _ (fun x hx => h x (List.mem_cons_of_mem _ hx)),
      textFallbackStep_quantity_of_no_shuliang _ _ (h l (List.mem_cons_self _ _))]

/-- The line `数量: 500斤` lands in the `数量` branch and stores `500斤`. -/
theorem textFallbackStep_shuliang_line (r : List (String × String)) :
    textFallbackStep r "数量: 500斤" = dictSet r "product_quantity" "500斤" := by
  have h1 : ¬(containsSub (pyStrip "数量: 500斤") "公司" = true ∧
      containsSub (pyStrip "数量: 500斤") "名称" = true) := by decide
  have h2 : ¬(containsSub (pyStrip "数量: 500斤") "物品" = true ∧
      containsSub (pyStrip "数量: 500斤") "名称" = true) := by decide
  have h3 : containsSub (pyStrip "数量: 500斤") "数量" = true := by decide
  have hcap : colonCapture (pyStrip "数量: 500斤").data = some "500斤".data := by decide
  simp only [textFallbackStep]
  rw [if_neg h1, if_neg h2, if_pos h3, hcap]
  rfl

/-- Counterexample for C8 as stated: the reply
`数量: 500斤\n数量: 999吨` contains no JSON object and contains the line
`数量: 500斤`, yet the batch text fallback reports `999吨` (its per-line
loop overwrites, so the last `数量` line wins), not `500斤`. -/
theorem c8_counterexample :
    findJsonChunk "数量: 500斤\n数量: 999吨".data = none
    ∧ pyLookup (batch_parse_extraction_result "数量: 500斤\n数量: 999吨")
        "product_quantity" = some "999吨" := by
  exact ⟨by decide, by decide⟩

/-- C8 as amended: on a reply with no JSON object in which `数量: 500斤` is
the only line whose stripped text mentions `数量`, the batch text fallback
sets `product_quantity` to `500斤` (if other `数量` lines exist, the last
match wins instead); the deepseek regex fallback behaves the same way on a
representative such reply, setting `购买物品数量` to `500斤` (there, the
first match in the raw response wins). -/
theorem c8_amended_quantity_fallback :
    (∀ (response : String) (ls1 ls2 : List String),
       pySplitLines response = ls1 ++ "数量: 500斤" :: ls2 →
       (∀ l ∈ ls1 ++ ls2, containsSub (pyStrip l) "数量" = false) →
       findJsonChunk response.data = none →
       pyLookup (batch_parse_extraction_result response) "product_quantity" =
         some "500斤")
    ∧ deepseek_parse_extraction_result "abc\n数量: 500斤" =
        [("客户公司名称", "未找到"), ("购买物品名称", "未找到"),
         ("购买物品数量", "500斤"), ("下订单日期", "未找到")] := by
  constructor
  · intro response ls1 ls2 hsplit hno hjson
    have hbp : batch_parse_extraction_result response = textFallback response := by
      simp only [batch_parse_extraction_result, hjson]
    rw [hbp]
    unfold textFallback
    rw [hsplit, List.foldl_append, List.foldl_cons,
      textFallback_fold_quantity ls2 _
        (fun l hl => hno l (List.mem_append_right _ hl)),
      textFallbackStep_shuliang_line, pyLookup_dictSet_self]
  · decide

/-- Witness for the amended C8 at a concrete three-line reply. -/
theorem c8_witness :
    pyLookup (batch_parse_extraction_result "hello\n数量: 500斤\nbye")
      "product_quantity" = some "500斤" :=
  c8_amended_quantity_fallback.1 "hello\n数量: 500斤\nbye" ["hello"] ["bye"]
    (by decide) (by decide) (by decide)

/-! ### Claim C5 -/

/-- The `rec_texts` loop keeps exactly the texts that are non-blank after
stripping. -/
theorem collectRec_snd_length (ts : List String) (scores : List Rat)
    (boxes : List BBox) (i : Nat) :
    (collectRec scores boxes ts i).2.length =
      (ts.filter (fun t => !(pyStrip t == ""))).length := by
  induction ts generalizing i with
  | nil => rfl
  | cons t ts ih =>
    by_cases h : pyStrip t = ""
    · simp [collectRec, List.filter_cons, h, ih]
    · simp [collectRec, List.filter_cons, h, ih]

/-- On a list of well-formed pairs, the old-style loop succeeds and keeps
every entry. -/
theorem lineScan_all_pairs (entries : List OCRLineEntry)
    (h : ∀ e ∈ entries, ∃ b t c, e = OCRLineEntry.pair b t c) :
    ∃ rd fl, lineScan entries = Except.ok (rd, fl) ∧ fl.length = entries.length := by
  induction entries with
  | nil => exact ⟨[], [], rfl, rfl⟩
  | cons e es ih =>
    obtain ⟨b, t, c, rfl⟩ := h e (List.mem_cons_self _ _)
    obtain ⟨rd, fl, hscan, hlen⟩ := ih (fun x hx => h x (List.mem_cons_of_mem _ hx))
    refine ⟨⟨b, t, c⟩ :: rd, t :: fl, ?_, ?_⟩
    · simp [lineScan, hscan]
    · simp [hlen]

/-- Counterexample for C5 as stated: a dict-shaped engine response
reporting one text region whose text is blank yields `total_lines` 0 (and
an empty `raw_result`), not the reported count 1 — blank regions are
silently dropped by `if text.strip():`. -/
theorem c5_counterexample :
    spec_reportedRegionCount
      (OCREngineResult.items (OCRRespItem.recDict [" "] none none)) = 1
    ∧ (extract_text_from_image
        (OCREngineResult.items (OCRRespItem.recDict [" "] none none))
        "str").totalLines = some 0 := by
  exact ⟨rfl, by decide⟩

/-- C5 as amended: the adapter always returns (never raises), and the
returned region count is: for the `rec_texts` dict shape, the number of
reported texts that are non-blank after stripping (blank ones are
dropped); for the tuple-list shape with at least one entry, all of them
well-formed, the number of entries; for the empty response, the no-regions
error dict; and the single stringified region for the unrecognized
shapes. -/
theorem c5_amended_region_counts :
    (∀ (texts : List String) (oscores : Option (List Rat))
       (oboxes : Option (List BBox)) (sres : String),
       (extract_text_from_image
         (OCREngineResult.items (OCRRespItem.recDict texts oscores oboxes))
         sres).totalLines =
         some ((texts.filter (fun t => !(pyStrip t == ""))).length))
    ∧ (∀ (entries : List OCRLineEntry) (sres : String),
       entries ≠ [] →
       (∀ e ∈ entries, ∃ b t c, e = OCRLineEntry.pair b t c) →
       (extract_text_from_image
         (OCREngineResult.items (OCRRespItem.lineList entries)) sres).totalLines =
         some entries.length)
    ∧ (∀ sres, extract_text_from_image OCREngineResult.empty sres =
        OCRExtractOutput.errorOut [] "" "未识别到任何文字")
    ∧ (∀ sres,
       (extract_text_from_image (OCREngineResult.items OCRRespItem.otherDict)
         sres).totalLines = some 1
       ∧ (extract_text_from_image (OCREngineResult.items OCRRespItem.otherItem)
           sres).totalLines = some 1
       ∧ (extract_text_from_image OCREngineResult.nonList sres).totalLines = some 1) := by
  refine ⟨?_, ?_, fun _ => rfl, fun _ => ⟨rfl, rfl, rfl⟩⟩
  · intro texts oscores oboxes sres
    simp only [extract_text_from_image, OCRExtractOutput.totalLines]
    exact congrArg some (collectRec_snd_length texts _ _ 0)
  · intro entries sres hne hall
    obtain ⟨rd, fl, hscan, hlen⟩ := lineScan_all_pairs entries hall
    have hfl : fl.isEmpty = false := by
      cases fl with
      | nil =>
        exfalso
        exact (List.length_pos.mpr hne).ne (by simpa using hlen)
      | cons a l => rfl
    simp only [extract_text_from_image, hscan, hfl, OCRExtractOutput.totalLines]
    simp [hlen]

/-- Witness for the amended C5 on a one-entry tuple-list response. -/
theorem c5_witness :
    (extract_text_from_image
      (OCREngineResult.items (OCRRespItem.lineList [OCRLineEntry.pair [] "hello" 1]))
      "s").totalLines = some 1 :=
  c5_amended_region_counts.2.1 [OCRLineEntry.pair [] "hello" 1] "s"
    (by decide) (fun e he => ⟨[], "hello", 1, by simpa using he⟩)

/-! ### Claim C6 -/

/-- Folding the counter updates: when no iteration hits the
increment-then-raise path, each file adds exactly one to
`processed + failed`, and `total` is never touched by the loop. -/
theorem batchCounts_fold (fs : List BatchFileOutcome) (c : BatchCounts)
    (h : BatchFileOutcome.okThenRaised ∉ fs) :
    (fs.foldl batchCountStep c).processed + (fs.foldl batchCountStep c).failed =
      c.processed + c.failed + fs.length
    ∧ (fs.foldl batchCountStep c).total = c.total := by
  induction fs generalizing c with
  | nil => simp
  | cons f fs ih =>
    have hf : f ≠ BatchFileOutcome.okThenRaised :=
      fun he => h (he ▸ List.mem_cons_self _ _)
    have hmem : BatchFileOutcome.okThenRaised ∉ fs :=
      fun hm => h (List.mem_cons_of_mem _ hm)
    obtain ⟨h1, h2⟩ := ih (batchCountStep c f) hmem
    constructor
    · rw [List.foldl_cons, h1]
      cases f with
      | noResult => simp [batchCountStep]; omega
      | raisedBefore => simp [batchCountStep]; omega
      | okThenRaised => exact absurd rfl hf
      | ok => simp [batchCountStep]; omega
    · rw [List.foldl_cons, h2]
      cases f <;> rfl

/-- Counterexample for C6 as stated: a run whose single file succeeds in
OCR but raises while its results are being written increments *both*
counters (`processed_images += 1` on line 125, then the `except` on line
150 adds `failed_images += 1`), so `processed + failed = 2 ≠ 1 = total`. -/
theorem c6_counterexample :
    (batch_ocr_counts [BatchFileOutcome.okThenRaised]).total = 1
    ∧ (batch_ocr_counts [BatchFileOutcome.okThenRaised]).processed +
        (batch_ocr_counts [BatchFileOutcome.okThenRaised]).failed ≠
        (batch_ocr_counts [BatchFileOutcome.okThenRaised]).total := by
  exact ⟨rfl, by decide⟩

/-- C6 as amended: provided no file raises *after* its success increment
(i.e. while its result files are written), every file increments exactly
one of the two counters, so `processed + failed = total` in both batch
scripts, and the reported success rate `processed/total*100` then equals
`processed/(processed+failed)*100`. -/
theorem c6_amended_batch_counters (fs : List BatchFileOutcome)
    (h : BatchFileOutcome.okThenRaised ∉ fs) :
    (batch_ocr_counts fs).processed + (batch_ocr_counts fs).failed =
      (batch_ocr_counts fs).total
    ∧ (batch_deepseek_counts fs).processed + (batch_deepseek_counts fs).failed =
      (batch_deepseek_counts fs).total
    ∧ batchSuccessRate (batch_ocr_counts fs) =
      ((batch_ocr_counts fs).processed : Rat) /
        (((batch_ocr_counts fs).processed + (batch_ocr_counts fs).failed : Nat) : Rat)
        * 100 := by
  obtain ⟨h1, h2⟩ := batchCounts_fold fs ⟨fs.length, 0, 0⟩ h
  have hsum : (batch_ocr_counts fs).processed + (batch_ocr_counts fs).failed =
      fs.length := by simpa using h1
  have htot : (batch_ocr_counts fs).total = fs.length := h2
  have hd : batch_deepseek_counts fs = batch_ocr_counts fs := rfl
  refine ⟨by rw [hsum, htot], by rw [hd, hsum, htot], ?_⟩
  unfold batchSuccessRate
  rw [hsum, htot]

/-- Witness for the amended C6 on a two-file run. -/
theorem c6_witness :
    (batch_ocr_counts [BatchFileOutcome.ok, BatchFileOutcome.noResult]).processed +
      (batch_ocr_counts [BatchFileOutcome.ok, BatchFileOutcome.noResult]).failed =
      (batch_ocr_counts [BatchFileOutcome.ok, BatchFileOutcome.noResult]).total :=
  (c6_amended_batch_counters [BatchFileOutcome.ok, BatchFileOutcome.noResult]
    (by decide)).1

/-! ### Claim C10 -/

/-- A conditional in-place update with a key of the scheme keeps the key
set intact. -/
theorem keys_preserved_ite (c : Prop) [Decidable c] (r : List (String × String))
    (k v : String) (hk : k ∈ normKeys) (h : r.map Prod.fst = normKeys) :
    (if c then dictSet r k v else r).map Prod.fst = normKeys := by
  split
  · rw [dictSet_map_fst_of_mem r k v (by rw [h]; exact hk), h]
  · exact h

/-- A conditional in-place update of another key does not change a
lookup. -/
theorem pyLookup_ite_dictSet_ne (c : Prop) [Decidable c] (r : List (String × String))
    (k v k' : String) (h : k' ≠ k) :
    pyLookup (if c then dictSet r k v else r) k' = pyLookup r k' := by
  split
  · exact pyLookup_dictSet_ne r k v k' h
  · rfl

/-- One `extract_basic_info` iteration keeps exactly the four keys. -/
theorem basicStep_map_fst (r : List (String × String)) (line : String)
    (h : r.map Prod.fst = normKeys) :
    (basicStep r line).map Prod.fst = normKeys := by
  simp only [basicStep]
  exact keys_preserved_ite _ _ _ _ (by decide)
    (keys_preserved_ite _ _ _ _ (by decide)
      (keys_preserved_ite _ _ _ _ (by decide) h))

/-- No `extract_basic_info` rule ever writes `product_name`. -/
theorem basicStep_product_name (r : List (String × String)) (line : String) :
    pyLookup (basicStep r line) "product_name" = pyLookup r "product_name" := by
  simp only [basicStep]
  exact (pyLookup_ite_dictSet_ne _ _ _ _ _ (by decide)).trans
    ((pyLookup_ite_dictSet_ne _ _ _ _ _ (by decide)).trans
      (pyLookup_ite_dictSet_ne _ _ _ _ _ (by decide)))

/-- A line whose stripped text lacks `公司` leaves the company field
alone. -/
theorem basicStep_company_of_no_gongsi (r : List (String × String)) (line : String)
    (h : containsSub (pyStrip line) "公司" = false) :
    pyLookup (basicStep r line) "company_name" = pyLookup r "company_name" := by
  have hc : ¬(containsSub (pyStrip line) "公司" = true ∧
      pyLookup r "company_name" = some "未找到") := by
    rintro ⟨h1, -⟩
    rw [h] at h1
    exact Bool.false_ne_true h1
  simp only [basicStep]
  rw [if_neg hc]
  exact (pyLookup_ite_dictSet_ne _ _ _ _ _ (by decide)).trans
    (pyLookup_ite_dictSet_ne _ _ _ _ _ (by decide))

/-- Once the company field holds a non-sentinel value, no later line can
overwrite it (the rule requires the sentinel to still be present). -/
theorem basicStep_company_keep (r : List (String × String)) (line w : String)
    (hw : pyLookup r "company_name" = some w) (hne : w ≠ "未找到") :
    pyLookup (basicStep r line) "company_name" = some w := by
  have hc : ¬(containsSub (pyStrip line) "公司" = true ∧
      pyLookup r "company_name" = some "未找到") := by
    rintro ⟨-, h2⟩
    rw [hw] at h2
    exact hne (Option.some.inj h2)
  simp only [basicStep]
  rw [if_neg hc]
  exact ((pyLookup_ite_dictSet_ne _ _ _ _ _ (by decide)).trans
    (pyLookup_ite_dictSet_ne _ _ _ _ _ (by decide))).trans hw

/-- The first line with `公司` while the sentinel is still present stores
its stripped text. -/
theorem basicStep_company_trigger (r : List (String × String)) (line : String)
    (h1 : containsSub (pyStrip line) "公司" = true)
    (h2 : pyLookup r "company_name" = some "未找到") :
    pyLookup (basicStep r line) "company_name" = some (pyStrip line) := by
  simp only [basicStep]
  rw [pyLookup_ite_dictSet_ne _ _ _ _ _
      (show ("company_name" : String) ≠ "order_date" by decide),
    pyLookup_ite_dictSet_ne _ _ _ _ _
      (show ("company_name" : String) ≠ "product_quantity" by decide),
    if_pos ⟨h1, h2⟩, pyLookup_dictSet_self]

/-- A string containing `公司` is not the sentinel. -/
theorem ne_sentinel_of_gongsi (s : String) (h : containsSub s "公司" = true) :
    s ≠ "未找到" := by
  intro he
  rw [he] at h
  exact absurd h (by decide)

/-- Folding lines without `公司` preserves the company lookup. -/
theorem basic_fold_company_of_no_gongsi (ls : List String)
    (r : List (String × String))
    (h : ∀ u ∈ ls, containsSub (pyStrip u) "公司" = false) :
    pyLookup (ls.foldl basicStep r) "company_name" =
      pyLookup r "company_name" := by
  induction ls generalizing r with
  | nil => rfl
  | cons l ls ih =>
    rw [List.foldl_cons, ih _ (fun x hx => h x (List.mem_cons_of_mem _ hx)),
      basicStep_company_of_no_gongsi _ _ (h l (List.mem_cons_self _ _))]

/-- Folding any lines preserves a non-sentinel company value. -/
theorem basic_fold_company_keep (ls : List String) (r : List (String × String))
    (w : String) (hw : pyLookup r "company_name" = some w) (hne : w ≠ "未找到") :
    pyLookup (ls.foldl basicStep r) "company_name" = some w := by
  induction ls generalizing r with
  | nil => exact hw
  | cons l ls ih =>
    rw [List.foldl_cons]
    exact ih _ (basicStep_company_keep _ _ _ hw hne)

/-- Counterexample for C10 as stated: on the single line `" A公司 "` (which
contains `公司`), the extractor stores the *stripped* text `A公司`, not the
line itself. -/
theorem c10_counterexample :
    containsSub " A公司 " "公司" = true
    ∧ pyLookup (extract_basic_info [" A公司 "]) "company_name" = some "A公司"
    ∧ ("A公司" : String) ≠ " A公司 " := by
  exact ⟨by decide, by decide, by decide⟩

/-- C10 as amended: `extract_basic_info` always returns a dict with exactly
the four field keys, never assigns `product_name` (it stays the sentinel),
and sets `company_name` to the *whitespace-stripped* text of the first line
(in input order) whose stripped text contains `公司`, when one exists. -/
theorem c10_amended_basic_info (texts : List String) :
    (extract_basic_info texts).map Prod.fst = normKeys
    ∧ pyLookup (extract_basic_info texts) "product_name" = some "未找到"
    ∧ (∀ (l1 : List String) (t : String) (l2 : List String),
        texts = l1 ++ t :: l2 →
        (∀ u ∈ l1, containsSub (pyStrip u) "公司" = false) →
        containsSub (pyStrip t) "公司" = true →
        pyLookup (extract_basic_info texts) "company_name" = some (pyStrip t)) := by
  refine ⟨?_, ?_, ?_⟩
  · have : ∀ (ls : List String) (r : List (String × String)),
        r.map Prod.fst = normKeys → (ls.foldl basicStep r).map Prod.fst = normKeys := by
      intro ls
      induction ls with
      | nil => exact fun r h => h
      | cons l ls ih =>
        intro r h
        rw [List.foldl_cons]
        exact ih _ (basicStep_map_fst r l h)
    exact this texts defaultResult (by decide)
  · have : ∀ (ls : List String) (r : List (String × String)),
        pyLookup (ls.foldl basicStep r) "product_name" = pyLookup r "product_name" := by
      intro ls
      induction ls with
      | nil => exact fun r => rfl
      | cons l ls ih =>
        intro r
        rw [List.foldl_cons, ih, basicStep_product_name]
    exact (this texts defaultResult).trans (by decide)
  · intro l1 t l2 hsplit hno ht
    unfold extract_basic_info
    rw [hsplit, List.foldl_append, List.foldl_cons]
    have h0 : pyLookup (l1.foldl basicStep defaultResult) "company_name" =
        some "未找到" :=
      (basic_fold_company_of_no_gongsi l1 defaultResult hno).trans (by decide)
    exact basic_fold_company_keep l2 _ (pyStrip t)
      (basicStep_company_trigger _ _ ht h0)
      (ne_sentinel_of_gongsi _ ht)

/-- Witness for the amended C10 on a two-line input. -/
theorem c10_witness :
    pyLookup (extract_basic_info ["x", "大公司"]) "company_name" = some "大公司" := by
  have h := (c10_amended_basic_info ["x", "大公司"]).2.2 ["x"] "大公司" [] rfl
    (by decide) (by decide)
  exact h.trans (by decide)
